import Mathlib

/-!
# Lockpick_RCM `source/main.c`: a shallow embedding

The definitions below follow `source/main.c` function by function.

* Machine words are natural numbers; 32-bit arithmetic is written with an
  explicit `% 4294967296`.
* Physical memory is a byte map indexed by address.  Address arithmetic wraps
  at `2 ^ 32`, as it does on the 32-bit target.
* Functions of other translation units (storage drivers, FatFs, the heap,
  `dump_keys`, `pkg1_identify`, the text UI) are not part of `main.c`.  Their
  answers are inputs of the embedded functions and every call to them is
  recorded in a trace.
-/

namespace Lockpick

/-! ## Physical memory -/

/-- Byte-addressed physical memory: the byte stored at each address. -/
abbrev Mem := Nat → Nat

/-- Distance from address `base` up to address `a`, walking upwards and
wrapping at `2 ^ 32`. -/
def offsetFrom (base a : Nat) : Nat :=
  (a % 4294967296 + 4294967296 - base % 4294967296) % 4294967296

/-- Library `memcpy(dst, src, n)`: byte `i < n` of the destination receives
byte `i` of the source.  All source bytes are read from the memory as it is
before the call (C leaves the overlapping case undefined). -/
def memcpy (m : Mem) (dst src n : Nat) : Mem := fun a =>
  if offsetFrom dst a < n then m ((src + offsetFrom dst a) % 4294967296) else m a

/-- A 32-bit little-endian store `*(u32 *)addr = val`. -/
def store32 (m : Mem) (addr val : Nat) : Mem := fun a =>
  if offsetFrom addr a < 4 then (val / 256 ^ offsetFrom addr a) % 256 else m a

/-- A 32-bit little-endian load `*(u32 *)addr`. -/
def load32 (m : Mem) (addr : Nat) : Nat :=
  m (addr % 4294967296)
    + 256 * m ((addr + 1) % 4294967296)
    + 65536 * m ((addr + 2) % 4294967296)
    + 16777216 * m ((addr + 3) % 4294967296)

/-- One memory effect of a straight-line routine. -/
inductive MemOp where
  | copy (dst src n : Nat)
  | store (addr val : Nat)
  deriving DecidableEq, Repr

/-- Effect of one memory operation. -/
def MemOp.run : MemOp → Mem → Mem
  | .copy dst src n, m => memcpy m dst src n
  | .store addr val, m => store32 m addr val

/-- Effect of a sequence of memory operations, first to last. -/
def runOps : List MemOp → Mem → Mem
  | [], m => m
  | op :: ops, m => runOps ops (op.run m)

/-! ## `reloc_patcher` -/

def RELOC_META_OFF : Nat := 0x7C
def PATCHED_RELOC_SZ : Nat := 0x94
def PATCHED_RELOC_STACK : Nat := 0x40007000
def COREBOOT_ADDR : Nat := 0xD0000000 - 0x100000
def CBFS_DRAM_EN_ADDR : Nat := 0x4003e000
def CBFS_DRAM_MAGIC : Nat := 0x4452414D

/-- Modelled from the spec: the `ALIGN(x, a)` macro of `utils/types.h`, which is
not among the sources; the spec calls it `align(header_size, 16)`.  It rounds
`x` up to a multiple of the power of two `a`, in 32-bit arithmetic:
`(x + a - 1) & ~(a - 1)`. -/
def ALIGN (x a : Nat) : Nat :=
  ((x + a + 4294967295) % 4294967296) &&& (4294967295 ^^^ ((a + 4294967295) % 4294967296))

/-- Modelled from the spec: `reloc_meta_t` (declared in a header that is not
among the sources) holds four consecutive 32-bit words: load start, stack top,
end of image, entry point. -/
structure reloc_meta_t where
  start : Nat
  stack : Nat
  end_ : Nat
  ep : Nat
  deriving DecidableEq, Repr

/-- The four values `reloc_patcher` assigns to the fields of `*relocator`
(right-hand sides of lines 142-145), as `u32` values. -/
def reloc_meta (payload_dst payload_size : Nat) : reloc_meta_t :=
  { start := (payload_dst + 4294967296 - ALIGN PATCHED_RELOC_SZ 0x10) % 4294967296
    stack := PATCHED_RELOC_STACK
    end_ := (payload_dst + payload_size) % 4294967296
    ep := payload_dst }

/-- Address of the relocator block, `payload_src + RELOC_META_OFF` as a `u32`. -/
def relocator (payload_src : Nat) : Nat :=
  (payload_src + RELOC_META_OFF) % 4294967296

/-- The memory operations of `reloc_patcher`, in program order.
`IPL_LOAD_ADDR` is a constant of a header that is not among the sources and is
taken as a parameter. -/
def reloc_patcher_ops (IPL_LOAD_ADDR payload_dst payload_src payload_size : Nat) :
    List MemOp :=
  [ MemOp.copy payload_src IPL_LOAD_ADDR PATCHED_RELOC_SZ,
    MemOp.store (relocator payload_src) (reloc_meta payload_dst payload_size).start,
    MemOp.store (relocator payload_src + 4) (reloc_meta payload_dst payload_size).stack,
    MemOp.store (relocator payload_src + 8) (reloc_meta payload_dst payload_size).end_,
    MemOp.store (relocator payload_src + 12) (reloc_meta payload_dst payload_size).ep ]
  ++ (if payload_size = 0x7000 then
        [ MemOp.copy ((payload_src + ALIGN PATCHED_RELOC_SZ 0x10) % 4294967296)
            COREBOOT_ADDR 0x7000,
          MemOp.store CBFS_DRAM_EN_ADDR CBFS_DRAM_MAGIC ]
      else [])

/-- `reloc_patcher(payload_dst, payload_src, payload_size)` as a memory
transformer. -/
def reloc_patcher (IPL_LOAD_ADDR : Nat) (m : Mem)
    (payload_dst payload_src payload_size : Nat) : Mem :=
  runOps (reloc_patcher_ops IPL_LOAD_ADDR payload_dst payload_src payload_size) m

/-! ## Calls into other translation units -/

/-- The run-time configuration `h_cfg`; `main.c` uses only the flag
`emummc_force_disable`. -/
structure hekate_config where
  emummc_force_disable : Bool
  deriving DecidableEq, Repr

/-- The persisted boot configuration `b_cfg`.  Only the two bit-mask fields that
`main.c` touches are kept; they are wide enough to hold the flag constants. -/
structure boot_cfg_t where
  boot_cfg : Nat
  extra_cfg : Nat
  deriving DecidableEq, Repr

/-- The emulated-NAND configuration `emu_cfg`; `main.c` only writes `enabled`. -/
structure emummc_cfg_t where
  enabled : Nat
  deriving DecidableEq, Repr

/-- A call that leaves `main.c`, with the arguments that matter.  `dump_keys`
carries the configuration records as they are when it is entered. -/
inductive Call where
  | sdmmc_storage_init_sd
  | f_mount
  | f_unmount
  | sdmmc_storage_end
  | EPRINTF
  | EPRINTFARGS (arg : Nat)
  | f_open (path : String) (mode : Nat)
  | f_size
  | malloc (size ptr : Nat)
  | f_read (size : Nat)
  | f_write (size : Nat)
  | free (ptr : Nat)
  | f_close
  | dump_keys (h : hekate_config) (b : boot_cfg_t) (e : emummc_cfg_t)
  | tui_do_menu
  | hw (name : String)
  deriving DecidableEq, Repr

/-- Result of running a function: returned value, state afterwards, and the
calls it issued, in order. -/
structure Run (α σ : Type) where
  ret : α
  state : σ
  calls : List Call

/-! ## Storage mount layer -/

/-- FatFs success code (`ff.h`). -/
def FR_OK : Nat := 0
/-- FatFs open modes (`ff.h`). -/
def FA_READ : Nat := 0x01
def FA_WRITE : Nat := 0x02
def FA_CREATE_ALWAYS : Nat := 0x08

/-- The mount state: the flag `sd_mounted` of `main.c`, and what the driver
objects `sd_storage` and `sd_fs` hold (controller brought up, volume bound). -/
structure SdState where
  sd_mounted : Bool
  sd_storage_up : Bool
  sd_fs_bound : Bool
  deriving DecidableEq, Repr

/-- What the card answers: the result of `sdmmc_storage_init_sd` and the FatFs
code of `f_mount(&sd_fs, "sd:", 1)`. -/
structure SdCard where
  init_sd : Bool
  f_mount : Nat
  deriving DecidableEq, Repr

/-- The function `sd_mount` (lines 49-74).  Modelled from the spec: a
successful controller start marks `sd_storage` as up, a successful mount binds
`sd_fs`, and a failing driver call leaves its object as it was. -/
def sd_mount (card : SdCard) (s : SdState) : Run Bool SdState :=
  if s.sd_mounted then
    { ret := true, state := s, calls := [] }
  else if !card.init_sd then
    { ret := false, state := s, calls := [Call.sdmmc_storage_init_sd, Call.EPRINTF] }
  else
    let s1 := { s with sd_storage_up := true }
    if card.f_mount = FR_OK then
      { ret := true
        state := { s1 with sd_fs_bound := true, sd_mounted := true }
        calls := [Call.sdmmc_storage_init_sd, Call.f_mount] }
    else
      { ret := false
        state := s1
        calls := [Call.sdmmc_storage_init_sd, Call.f_mount, Call.EPRINTFARGS card.f_mount] }

/-- The function `sd_unmount` (lines 76-84). -/
def sd_unmount (s : SdState) : Run Unit SdState :=
  if s.sd_mounted then
    { ret := ()
      state := { sd_mounted := false, sd_storage_up := false, sd_fs_bound := false }
      calls := [Call.f_unmount, Call.sdmmc_storage_end] }
  else
    { ret := (), state := s, calls := [] }

/-- Modelled from the spec: the heap of `mem/heap.h`, which is not among the
sources.  It records the addresses of the live allocations and the next free
address. -/
structure Heap where
  live : List Nat
  next : Nat
  deriving DecidableEq, Repr

/-- Modelled from the spec: `malloc(size)` hands out a fresh block. -/
def malloc (h : Heap) (size : Nat) : Nat × Heap :=
  (h.next, { live := h.next :: h.live, next := h.next + size + 1 })

/-- Modelled from the spec: `free(ptr)` releases the block at `ptr`. -/
def free (h : Heap) (ptr : Nat) : Heap :=
  { h with live := h.live.erase ptr }

/-- What FatFs answers for a path: the code of `f_open`, the size of the file,
the code and data of `f_read`, the code and byte count of `f_write`. -/
structure FatFs where
  f_open : String → Nat → Nat
  f_size : String → Nat
  f_read : String → Nat → Nat × List Nat
  f_write : String → List Nat → Nat → Nat × Nat

/-- A buffer returned to the caller: its address and its content. -/
structure Buffer where
  ptr : Nat
  data : List Nat
  deriving DecidableEq, Repr

/-- The function `sd_file_read` (lines 86-109).  `fsize` is the cell behind the
out-pointer (`none` for a null pointer); the state is the heap and that cell.
The result `none` is `NULL`. -/
def sd_file_read (fs : FatFs) (path : String) (fsize : Option Nat) (h : Heap) :
    Run (Option Buffer) (Heap × Option Nat) :=
  if fs.f_open path FA_READ ≠ FR_OK then
    { ret := none, state := (h, fsize), calls := [Call.f_open path FA_READ] }
  else
    let size := fs.f_size path % 4294967296
    let fsize1 := fsize.map (fun _ => size)
    let buf := (malloc h size).1
    let h1 := (malloc h size).2
    if (fs.f_read path size).1 ≠ FR_OK then
      { ret := none
        state := (free h1 buf, fsize1)
        calls := [Call.f_open path FA_READ, Call.f_size, Call.malloc size buf,
          Call.f_read size, Call.free buf, Call.f_close] }
    else
      { ret := some { ptr := buf, data := (fs.f_read path size).2 }
        state := (h1, fsize1)
        calls := [Call.f_open path FA_READ, Call.f_size, Call.malloc size buf,
          Call.f_read size, Call.f_close] }

/-- The function `sd_save_to_file` (lines 111-126).  The state is what became
of the file: `none` when it was not created, `some n` when it was created and
`f_write` put `n` bytes into it.  The code that `f_write` returns is not looked
at, as in the source. -/
def sd_save_to_file (fs : FatFs) (buf : List Nat) (size : Nat) (filename : String) :
    Run Nat (Option Nat) :=
  let res := fs.f_open filename (FA_CREATE_ALWAYS ||| FA_WRITE) % 4294967296
  if res ≠ 0 then
    { ret := res
      state := none
      calls := [Call.f_open filename (FA_CREATE_ALWAYS ||| FA_WRITE), Call.EPRINTFARGS res] }
  else
    { ret := 0
      state := some (fs.f_write filename buf size).2
      calls := [Call.f_open filename (FA_CREATE_ALWAYS ||| FA_WRITE), Call.f_write size,
        Call.f_close] }

/-- A filesystem whose `f_open` succeeds and whose `f_write` fails with
`FR_DISK_ERR` (code 1) after writing nothing. -/
def diskErrorFs : FatFs :=
  { f_open := fun _ _ => 0
    f_size := fun _ => 0
    f_read := fun _ _ => (0, [])
    f_write := fun _ _ _ => (1, 0) }

/-- A filesystem on which the path does not exist: `f_open` answers
`FR_NO_FILE` (code 4). -/
def missingFileFs : FatFs :=
  { f_open := fun _ _ => 4
    f_size := fun _ => 0
    f_read := fun _ _ => (0, [])
    f_write := fun _ _ _ => (0, 0) }

/-- A filesystem on which a 16-byte file opens and `f_read` fails with
`FR_DISK_ERR` (code 1). -/
def readErrorFs : FatFs :=
  { f_open := fun _ _ => 0
    f_size := fun _ => 16
    f_read := fun _ _ => (1, [])
    f_write := fun _ _ _ => (0, 0) }

/-! ## Menu table -/

/-- The handlers named in `ment_top`. -/
inductive Handler where
  | dump_sysnand
  | dump_emunand
  | reboot_normal
  | reboot_rcm
  | power_off
  deriving DecidableEq, Repr

/-- Entry kinds of `gfx/tui.h` that `main.c` uses. -/
inductive MentType where
  | MENT_HANDLER
  | MENT_CAPTION
  | MENT_END
  deriving DecidableEq, Repr

/-- Colours: the named constants used in `ment_top`, or a raw ARGB value. -/
inductive Color where
  | COLOR_RED
  | COLOR_ORANGE
  | COLOR_YELLOW
  | COLOR_GREEN
  | COLOR_BLUE
  | COLOR_VIOLET
  | argb (v : Nat)
  deriving DecidableEq, Repr

/-- The memory behind a `char *`: the byte at each offset from the pointer. -/
abbrev CBuf := Nat → Nat

/-- The bytes of a string literal, followed by zero bytes. -/
def cstr (s : String) : CBuf := fun i => (s.toList.map Char.toNat).getD i 0

/-- A menu entry `ment_t`. -/
structure ment_t where
  type : MentType
  caption : CBuf
  color : Color
  handler : Option Handler

def MDEF_HANDLER (caption : CBuf) (handler : Handler) (color : Color) : ment_t :=
  { type := MentType.MENT_HANDLER, caption := caption, color := color, handler := some handler }

def MDEF_CAPTION (caption : CBuf) (color : Color) : ment_t :=
  { type := MentType.MENT_CAPTION, caption := caption, color := color, handler := none }

def MDEF_END : ment_t :=
  { type := MentType.MENT_END, caption := fun _ => 0, color := Color.argb 0, handler := none }

/-- The table `ment_top` (lines 170-178) as it is at program start. -/
def ment_top : Fin 7 → ment_t := fun i =>
  match i.val with
  | 0 => MDEF_HANDLER (cstr "Dump from SysNAND | Key generation: unk") Handler.dump_sysnand
      Color.COLOR_RED
  | 1 => MDEF_HANDLER (cstr "Dump from EmuNAND | Key generation: unk") Handler.dump_emunand
      Color.COLOR_ORANGE
  | 2 => MDEF_CAPTION (cstr "---------------") Color.COLOR_YELLOW
  | 3 => MDEF_HANDLER (cstr "Reboot (Normal)") Handler.reboot_normal Color.COLOR_GREEN
  | 4 => MDEF_HANDLER (cstr "Reboot (RCM)") Handler.reboot_rcm Color.COLOR_BLUE
  | 5 => MDEF_HANDLER (cstr "Power off") Handler.power_off Color.COLOR_VIOLET
  | _ => MDEF_END

/-! ## Global state -/

/-- Constants of headers that are not among the sources; they are parameters
of the model. -/
structure Consts where
  BOOT_CFG_SEPT_RUN : Nat
  EXTRA_CFG_DUMP_EMUMMC : Nat
  NX_EMMC_BLOCKSIZE : Nat
  deriving DecidableEq, Repr

/-- The globals of `main.c` and of the units it shares state with, the heap,
and the trace of calls issued so far. -/
structure Globals where
  sd : SdState
  heap : Heap
  h_cfg : hekate_config
  b_cfg : boot_cfg_t
  emu_cfg : emummc_cfg_t
  ment_top : Fin 7 → ment_t
  trace : List Call

/-- Modelled from the spec: `dump_keys` of `keys/keys.c`, which is not among the
sources, is the opaque key-dump operation.  Its invocation is recorded together
with the configuration it finds; it does not write the configuration records. -/
def dump_keys (g : Globals) : Globals :=
  { g with trace := g.trace ++ [Call.dump_keys g.h_cfg g.b_cfg g.emu_cfg] }

/-- Bitwise complement of a 32-bit `int`. -/
def bitNot32 (x : Nat) : Nat := 4294967295 ^^^ (x % 4294967296)

/-- The handler `dump_sysnand` (lines 154-159). -/
def dump_sysnand (K : Consts) (g : Globals) : Globals :=
  let g1 := { g with h_cfg := { g.h_cfg with emummc_force_disable := true } }
  let g2 := { g1 with b_cfg := { g1.b_cfg with
    extra_cfg := g1.b_cfg.extra_cfg &&& bitNot32 K.EXTRA_CFG_DUMP_EMUMMC } }
  dump_keys g2

/-- The handler `dump_emunand` (lines 161-168). -/
def dump_emunand (K : Consts) (g : Globals) : Globals :=
  if g.h_cfg.emummc_force_disable then g
  else
    let g1 := { g with emu_cfg := { g.emu_cfg with enabled := 1 } }
    let g2 := { g1 with b_cfg := { g1.b_cfg with
      extra_cfg := g1.b_cfg.extra_cfg ||| K.EXTRA_CFG_DUMP_EMUMMC } }
    dump_keys g2

/-! ## Key-generation labels -/

/-- Modelled from the spec: the decimal digits that the number printer of
`utils/sprintf.c` (not among the sources) produces for `v`, as character codes,
most significant first, in front of `acc`.  The printer emits `v % 10` and
divides by ten until nothing is left; `fuel` bounds the number of rounds. -/
def putnDigits : Nat → Nat → List Nat → List Nat
  | 0, _, acc => acc
  | fuel + 1, v, acc =>
    if v / 10 = 0 then (48 + v % 10) :: acc
    else putnDigits fuel (v / 10) ((48 + v % 10) :: acc)

/-- Modelled from the spec: the text of the conversion `"% 3d"`, the decimal
digits of `v` padded on the left with blanks to three characters. -/
def fmt_3d (v : Nat) : List Nat :=
  List.replicate (3 - (putnDigits (v + 1) v []).length) 32 ++ putnDigits (v + 1) v []

/-- Modelled from the spec: `sprintf(buf + off, "% 3d", v)` writes the text and
a terminating zero byte. -/
def sprintf_3d (buf : CBuf) (off v : Nat) : CBuf := fun i =>
  if off ≤ i ∧ i < off + (fmt_3d v).length then (fmt_3d v).getD (i - off) 0
  else if i = off + (fmt_3d v).length then 0
  else buf i

/-- Reading one more character of a decimal text: a blank is skipped, a digit
is appended to the number read so far. -/
def decimalStep (acc c : Nat) : Nat :=
  if c = 32 then acc else acc * 10 + (c - 48)

/-- The number that a text of blanks and decimal digits denotes. -/
def decimalValue (text : List Nat) : Nat :=
  text.foldl decimalStep 0

/-- The text `text` followed by a zero byte stands at offset `off` of `buf`. -/
def textAt (buf : CBuf) (off : Nat) (text : List Nat) : Prop :=
  (∀ i, i < text.length → buf (off + i) = text.getD i 0) ∧ buf (off + text.length) = 0

instance (buf : CBuf) (off : Nat) (text : List Nat) : Decidable (textAt buf off text) := by
  unfold textAt
  infer_instance

/-- The entry of the package-1 table that `pkg1_identify` returns; `kb` is the
key generation.  Other fields are not used by `main.c`. -/
structure pkg1_id_t where
  kb : Nat
  deriving DecidableEq, Repr

/-- What the flash backends hold: the content of the buffer `pkg1` after the
one-block read from the physical eMMC, and after the one-block read from the
emulated eMMC. -/
structure Flash where
  sysnand_pkg1 : List Nat
  emunand_pkg1 : List Nat

/-- The function `_get_key_generations` (lines 182-211).  `pkg1_identify` is
the classifier of `hos/pkg1.c`, a parameter.  The two labels are distinct
buffers. -/
def _get_key_generations (K : Consts) (flash : Flash)
    (pkg1_identify : List Nat → Option pkg1_id_t) (g : Globals)
    (sysnand_label emunand_label : CBuf) : Globals :=
  let pkg1 := (malloc g.heap K.NX_EMMC_BLOCKSIZE).1
  let heap1 := (malloc g.heap K.NX_EMMC_BLOCKSIZE).2
  let calls1 := [Call.hw "sdmmc_storage_init_mmc", Call.malloc K.NX_EMMC_BLOCKSIZE pkg1,
    Call.hw "sdmmc_storage_set_mmc_partition", Call.hw "sdmmc_storage_read",
    Call.hw "pkg1_identify", Call.hw "sdmmc_storage_end"]
  let sysnand_label1 :=
    match pkg1_identify flash.sysnand_pkg1 with
    | some pkg1_id => sprintf_3d sysnand_label 36 pkg1_id.kb
    | none => sysnand_label
  let menu1 := Function.update g.ment_top 0 { g.ment_top 0 with caption := sysnand_label1 }
  if g.h_cfg.emummc_force_disable then
    { g with
      heap := free heap1 pkg1
      ment_top := menu1
      trace := g.trace ++ calls1 ++ [Call.free pkg1] }
  else
    let calls2 := [Call.hw "emummc_storage_init_mmc", Call.hw "memset",
      Call.hw "emummc_storage_set_mmc_partition", Call.hw "emummc_storage_read",
      Call.hw "pkg1_identify", Call.hw "emummc_storage_end", Call.free pkg1]
    let emunand_label1 :=
      match pkg1_identify flash.emunand_pkg1 with
      | some pkg1_id => sprintf_3d emunand_label 36 pkg1_id.kb
      | none => emunand_label
    let menu2 := Function.update menu1 1 { menu1 1 with caption := emunand_label1 }
    { g with
      heap := free heap1 pkg1
      ment_top := menu2
      trace := g.trace ++ calls1 ++ calls2 }

/-! ## `ipl_main` -/

def IPL_STACK_TOP : Nat := 0x90010000
def IPL_HEAP_START : Nat := 0x90020000

/-- What the environment of one boot answers: the card, the defaults that
`set_default_configuration` installs, the return value of `emummc_load_cfg`
with the `emu_cfg` it loads, and the flash contents. -/
structure BootEnv where
  card : SdCard
  default_h_cfg : hekate_config
  emummc_load_cfg : Bool × emummc_cfg_t
  flash : Flash
  pkg1_identify : List Nat → Option pkg1_id_t

/-- Record calls in the trace. -/
def Globals.log (g : Globals) (calls : List Call) : Globals :=
  { g with trace := g.trace ++ calls }

/-- Lines 220-238 of `ipl_main`: hardware, heap and display bring-up, the
mount of the card, and the load of the emulated-NAND configuration. -/
def ipl_main_setup (env : BootEnv) (g : Globals) : Globals :=
  let g1 := g.log [Call.hw "config_hw", Call.hw "pivot_stack", Call.hw "heap_init"]
  let g2 := { g1 with heap := { live := [], next := IPL_HEAP_START } }
  let g3 := ({ g2 with h_cfg := env.default_h_cfg }).log [Call.hw "set_default_configuration"]
  let g4 := ({ g3 with sd := (sd_mount env.card g3.sd).state }).log (sd_mount env.card g3.sd).calls
  let g5 := g4.log [Call.hw "minerva_init", Call.hw "minerva_change_freq",
    Call.hw "display_init", Call.hw "display_init_framebuffer", Call.hw "gfx_init_ctxt",
    Call.hw "gfx_con_init", Call.hw "display_backlight_pwm_init", Call.hw "bpmp_clk_rate_set"]
  ({ g5 with
    h_cfg := { g5.h_cfg with emummc_force_disable := env.emummc_load_cfg.1 }
    emu_cfg := env.emummc_load_cfg.2 }).log [Call.hw "emummc_load_cfg"]

/-- Lines 240-245 of `ipl_main`: the dump that follows a sept run. -/
def ipl_main_sept (K : Consts) (g : Globals) : Globals :=
  if g.b_cfg.boot_cfg &&& K.BOOT_CFG_SEPT_RUN ≠ 0 then
    let g1 :=
      if g.b_cfg.extra_cfg &&& K.EXTRA_CFG_DUMP_EMUMMC = 0 then
        { g with h_cfg := { g.h_cfg with emummc_force_disable := true } }
      else g
    dump_keys g1
  else g

/-- Lines 247-252 of `ipl_main`: the EmuNAND entry becomes a grey caption when
the emulated NAND is disabled. -/
def ipl_main_grey (g : Globals) : Globals :=
  if g.h_cfg.emummc_force_disable then
    let entry := g.ment_top 1
    let greyed := { entry with
      type := MentType.MENT_CAPTION, color := Color.argb 0xFF555555, handler := none }
    { g with ment_top := Function.update g.ment_top 1 greyed }
  else g

/-- The function `ipl_main` (lines 218-257), from its entry up to and including
its first call of `tui_do_menu`.  The function never returns; what the menu
loop does afterwards lies in `gfx/tui.c`. -/
def ipl_main (K : Consts) (env : BootEnv) (g : Globals) : Globals :=
  let g6 := ipl_main_setup env g
  let g7 := ipl_main_sept K g6
  let g8 := ipl_main_grey g7
  let g9 := _get_key_generations K env.flash env.pkg1_identify g8
    (g8.ment_top 0).caption (g8.ment_top 1).caption
  g9.log [Call.tui_do_menu]

/-- Whether a call is an invocation of `dump_keys`. -/
def Call.isDumpKeys : Call → Bool
  | Call.dump_keys _ _ _ => true
  | _ => false

/-- The state of the machine when `ipl_main` is entered after a cold start. -/
def coldStart (b : boot_cfg_t) : Globals :=
  { sd := { sd_mounted := false, sd_storage_up := false, sd_fs_bound := false }
    heap := { live := [], next := 0 }
    h_cfg := { emummc_force_disable := false }
    b_cfg := b
    emu_cfg := { enabled := 0 }
    ment_top := ment_top
    trace := [] }

/-- A boot environment: card present with a FAT volume, the loader reports
`loaded`, and the classifier knows blocks starting with byte `0x20` as key
generation `7`. -/
def sampleEnv (loaded : Bool) : BootEnv :=
  { card := { init_sd := true, f_mount := 0 }
    default_h_cfg := { emummc_force_disable := false }
    emummc_load_cfg := (loaded, { enabled := 1 })
    flash := { sysnand_pkg1 := [0x20], emunand_pkg1 := [0] }
    pkg1_identify := fun blk => if blk.head? = some 0x20 then some { kb := 7 } else none }

/-- Flag constants used for evaluation. -/
def sampleConsts : Consts :=
  { BOOT_CFG_SEPT_RUN := 0x80, EXTRA_CFG_DUMP_EMUMMC := 0x01, NX_EMMC_BLOCKSIZE := 0x200 }

/-! ## Lemmas on memory -/

theorem ALIGN_reloc : ALIGN PATCHED_RELOC_SZ 0x10 = 0xA0 := by decide

theorem load32_store32_same (m : Mem) (a v : Nat) :
    load32 (store32 m a v) a = v % 4294967296 := by
  unfold load32 store32 offsetFrom
  have h0 : (a % 4294967296 % 4294967296 + 4294967296 - a % 4294967296) % 4294967296 = 0 := by
    omega
  have h1 : ((a + 1) % 4294967296 % 4294967296 + 4294967296 - a % 4294967296) % 4294967296
      = 1 := by omega
  have h2 : ((a + 2) % 4294967296 % 4294967296 + 4294967296 - a % 4294967296) % 4294967296
      = 2 := by omega
  have h3 : ((a + 3) % 4294967296 % 4294967296 + 4294967296 - a % 4294967296) % 4294967296
      = 3 := by omega
  simp only [h0, h1, h2, h3]
  norm_num
  omega

theorem offsetFrom_mod (a b : Nat) : offsetFrom a (b % 4294967296) = offsetFrom a b := by
  unfold offsetFrom; omega

theorem load32_store32_disjoint (m : Mem) (a v b : Nat)
    (h : ∀ i, i < 4 → 4 ≤ offsetFrom a (b + i)) :
    load32 (store32 m a v) b = load32 m b := by
  have h0 : 4 ≤ offsetFrom a b := h 0 (by omega)
  have h1 := h 1 (by omega)
  have h2 := h 2 (by omega)
  have h3 := h 3 (by omega)
  unfold load32 store32
  simp only [offsetFrom_mod]
  rw [if_neg (by omega), if_neg (by omega), if_neg (by omega), if_neg (by omega)]

theorem load32_memcpy_disjoint (m : Mem) (dst src n b : Nat)
    (h : ∀ i, i < 4 → n ≤ offsetFrom dst (b + i)) :
    load32 (memcpy m dst src n) b = load32 m b := by
  have h0 : n ≤ offsetFrom dst b := h 0 (by omega)
  have h1 := h 1 (by omega)
  have h2 := h 2 (by omega)
  have h3 := h 3 (by omega)
  unfold load32 memcpy
  simp only [offsetFrom_mod]
  rw [if_neg (by omega), if_neg (by omega), if_neg (by omega), if_neg (by omega)]

theorem offsetFrom_ge_of_sep (base n b : Nat)
    (h : ∀ i, i < n → (base + i) % 4294967296 ≠ b % 4294967296) : n ≤ offsetFrom base b := by
  by_contra hlt
  have := h (offsetFrom base b) (by omega)
  unfold offsetFrom at this
  omega

/-- Reading a metadata word back through the two sentinel-only operations
(blob copy, then magic store), when the word does not touch the control word. -/
theorem load32_through_coreboot (m : Mem) (payload_src f : Nat) (hf : f + 4 ≤ 16)
    (hsep : ∀ j, j < 16 → ∀ k, k < 4 →
      (payload_src + 0x7C + j) % 4294967296 ≠ CBFS_DRAM_EN_ADDR + k) :
    load32 (store32 (memcpy m ((payload_src + ALIGN PATCHED_RELOC_SZ 0x10) % 4294967296)
        COREBOOT_ADDR 0x7000) CBFS_DRAM_EN_ADDR CBFS_DRAM_MAGIC) (relocator payload_src + f)
      = load32 m (relocator payload_src + f) := by
  rw [load32_store32_disjoint, ALIGN_reloc, load32_memcpy_disjoint]
  · intro i hi
    unfold offsetFrom relocator RELOC_META_OFF
    omega
  · intro i hi
    apply offsetFrom_ge_of_sep
    intro k hk
    have := hsep (f + i) (by omega) k hk
    unfold relocator RELOC_META_OFF
    unfold CBFS_DRAM_EN_ADDR at this ⊢
    omega

/-- Reading the control word back through the header copy and the four
metadata stores, when the header does not touch the control word. -/
theorem load32_ctrl_through_header (m : Mem) (ipl payload_src : Nat) (r : reloc_meta_t)
    (hsep : ∀ i, i < 0x94 → ∀ k, k < 4 →
      (payload_src + i) % 4294967296 ≠ CBFS_DRAM_EN_ADDR + k) :
    load32 (store32 (store32 (store32 (store32 (memcpy m payload_src ipl PATCHED_RELOC_SZ)
        (relocator payload_src + 0) r.start) (relocator payload_src + 4) r.stack)
        (relocator payload_src + 8) r.end_) (relocator payload_src + 12) r.ep)
        CBFS_DRAM_EN_ADDR
      = load32 m CBFS_DRAM_EN_ADDR := by
  have hst : ∀ f, f + 4 ≤ 16 → ∀ k, k < 4 →
      4 ≤ offsetFrom (relocator payload_src + f) (CBFS_DRAM_EN_ADDR + k) := by
    intro f hf k hk
    apply offsetFrom_ge_of_sep
    intro i hi
    have := hsep (0x7C + f + i) (by omega) k hk
    unfold relocator RELOC_META_OFF
    unfold CBFS_DRAM_EN_ADDR at this ⊢
    omega
  have hcp : ∀ k, k < 4 → PATCHED_RELOC_SZ ≤ offsetFrom payload_src (CBFS_DRAM_EN_ADDR + k) := by
    intro k hk
    apply offsetFrom_ge_of_sep
    intro i hi
    have := hsep i (by unfold PATCHED_RELOC_SZ at hi; omega) k hk
    unfold CBFS_DRAM_EN_ADDR at this ⊢
    omega
  rw [load32_store32_disjoint _ _ _ _ (hst 12 (by omega)),
    load32_store32_disjoint _ _ _ _ (hst 8 (by omega)),
    load32_store32_disjoint _ _ _ _ (hst 4 (by omega)),
    load32_store32_disjoint _ _ _ _ (hst 0 (by omega)),
    load32_memcpy_disjoint _ _ _ _ _ hcp]

/-- Two metadata words at different field offsets do not share a byte. -/
theorem meta_fields_apart (payload_src f g : Nat) (hfg : f + 4 ≤ g ∨ g + 4 ≤ f)
    (hf : f ≤ 12) (hg : g ≤ 12) :
    ∀ i, i < 4 → 4 ≤ offsetFrom (relocator payload_src + f) (relocator payload_src + g + i) := by
  intro i hi
  unfold offsetFrom relocator
  omega

/-- Reading the metadata words back through the four metadata stores. -/
theorem load32_meta_words (m : Mem) (payload_src : Nat) (r : reloc_meta_t) :
    let m4 := store32 (store32 (store32 (store32 m
        (relocator payload_src + 0) r.start) (relocator payload_src + 4) r.stack)
        (relocator payload_src + 8) r.end_) (relocator payload_src + 12) r.ep
    load32 m4 (relocator payload_src + 0) = r.start % 4294967296
      ∧ load32 m4 (relocator payload_src + 4) = r.stack % 4294967296
      ∧ load32 m4 (relocator payload_src + 8) = r.end_ % 4294967296
      ∧ load32 m4 (relocator payload_src + 12) = r.ep % 4294967296 := by
  intro m4
  refine ⟨?_, ?_, ?_, ?_⟩
  · show load32 (store32 _ _ _) _ = _
    rw [load32_store32_disjoint _ _ _ _ (meta_fields_apart _ 12 0 (by omega) (by omega) (by omega)),
      load32_store32_disjoint _ _ _ _ (meta_fields_apart _ 8 0 (by omega) (by omega) (by omega)),
      load32_store32_disjoint _ _ _ _ (meta_fields_apart _ 4 0 (by omega) (by omega) (by omega))]
    exact load32_store32_same _ _ _
  · show load32 (store32 _ _ _) _ = _
    rw [load32_store32_disjoint _ _ _ _ (meta_fields_apart _ 12 4 (by omega) (by omega) (by omega)),
      load32_store32_disjoint _ _ _ _ (meta_fields_apart _ 8 4 (by omega) (by omega) (by omega))]
    exact load32_store32_same _ _ _
  · show load32 (store32 _ _ _) _ = _
    rw [load32_store32_disjoint _ _ _ _ (meta_fields_apart _ 12 8 (by omega) (by omega) (by omega))]
    exact load32_store32_same _ _ _
  · exact load32_store32_same _ _ _

theorem load32_congr (m : Mem) (a b : Nat) (h : a % 4294967296 = b % 4294967296) :
    load32 m a = load32 m b := by
  unfold load32
  have e1 : (a + 1) % 4294967296 = (b + 1) % 4294967296 := by omega
  have e2 : (a + 2) % 4294967296 = (b + 2) % 4294967296 := by omega
  have e3 : (a + 3) % 4294967296 = (b + 3) % 4294967296 := by omega
  rw [h, e1, e2, e3]

/-! ## Claims on `reloc_patcher` -/

/-- C1, as stated, fails: with the staging address `0x4003DF84` the `start`
word sits exactly on the control word `0x4003E000`, and for the sentinel size
`0x7000` the magic store, which comes last, replaces it. -/
theorem reloc_patcher_start_overwritten :
    load32 (reloc_patcher 0x40008000 (fun _ => 0) 0x90000000 0x4003DF84 0x7000)
        (0x4003DF84 + 0x7C) = 0x4452414D
      ∧ load32 (reloc_patcher 0x40008000 (fun _ => 0) 0x90000000 0x4003DF84 0x7000)
        (0x4003DF84 + 0x7C) ≠ (0x90000000 + 4294967296 - 0xA0) % 4294967296 := by
  decide

/-- C1 (amended): for every 32-bit `payload_dst`, and every `payload_src` and
`payload_size` such that, when `payload_size = 0x7000`, none of the sixteen
metadata bytes at `payload_src + 0x7C` is a byte of the control word
`0x4003E000`, the four words read back at `payload_src + 0x7C` after
`reloc_patcher` are `start = payload_dst - 0xA0` (mod `2 ^ 32`),
`stack = 0x40007000`, `end = payload_dst + payload_size` (mod `2 ^ 32`) and
`ep = payload_dst`. -/
theorem reloc_patcher_metadata (ipl : Nat) (m : Mem)
    (payload_dst payload_src payload_size : Nat)
    (hdst : payload_dst < 4294967296)
    (hsep : payload_size = 0x7000 → ∀ j, j < 16 → ∀ k, k < 4 →
      (payload_src + 0x7C + j) % 4294967296 ≠ CBFS_DRAM_EN_ADDR + k) :
    load32 (reloc_patcher ipl m payload_dst payload_src payload_size) (payload_src + 0x7C)
        = (payload_dst + 4294967296 - 0xA0) % 4294967296
      ∧ load32 (reloc_patcher ipl m payload_dst payload_src payload_size)
          (payload_src + 0x7C + 4) = 0x40007000
      ∧ load32 (reloc_patcher ipl m payload_dst payload_src payload_size)
          (payload_src + 0x7C + 8) = (payload_dst + payload_size) % 4294967296
      ∧ load32 (reloc_patcher ipl m payload_dst payload_src payload_size)
          (payload_src + 0x7C + 12) = payload_dst := by
  have a0 : load32 (reloc_patcher ipl m payload_dst payload_src payload_size)
      (payload_src + 0x7C) = load32 (reloc_patcher ipl m payload_dst payload_src payload_size)
      (relocator payload_src + 0) :=
    load32_congr _ _ _ (by unfold relocator RELOC_META_OFF; omega)
  have a4 : load32 (reloc_patcher ipl m payload_dst payload_src payload_size)
      (payload_src + 0x7C + 4) = load32 (reloc_patcher ipl m payload_dst payload_src payload_size)
      (relocator payload_src + 4) :=
    load32_congr _ _ _ (by unfold relocator RELOC_META_OFF; omega)
  have a8 : load32 (reloc_patcher ipl m payload_dst payload_src payload_size)
      (payload_src + 0x7C + 8) = load32 (reloc_patcher ipl m payload_dst payload_src payload_size)
      (relocator payload_src + 8) :=
    load32_congr _ _ _ (by unfold relocator RELOC_META_OFF; omega)
  have a12 : load32 (reloc_patcher ipl m payload_dst payload_src payload_size)
      (payload_src + 0x7C + 12) = load32 (reloc_patcher ipl m payload_dst payload_src payload_size)
      (relocator payload_src + 12) :=
    load32_congr _ _ _ (by unfold relocator RELOC_META_OFF; omega)
  rw [a0, a4, a8, a12]
  obtain ⟨w0, w4, w8, w12⟩ := load32_meta_words (memcpy m payload_src ipl PATCHED_RELOC_SZ)
    payload_src (reloc_meta payload_dst payload_size)
  have v0 : (reloc_meta payload_dst payload_size).start % 4294967296
      = (payload_dst + 4294967296 - 0xA0) % 4294967296 := by
    simp only [reloc_meta, ALIGN_reloc]; omega
  have v4 : (reloc_meta payload_dst payload_size).stack % 4294967296 = 0x40007000 := by
    simp [reloc_meta, PATCHED_RELOC_STACK]
  have v8 : (reloc_meta payload_dst payload_size).end_ % 4294967296
      = (payload_dst + payload_size) % 4294967296 := by
    simp only [reloc_meta]; omega
  have v12 : (reloc_meta payload_dst payload_size).ep % 4294967296 = payload_dst := by
    simp only [reloc_meta]; omega
  rw [v0] at w0; rw [v4] at w4; rw [v8] at w8; rw [v12] at w12
  by_cases hs : payload_size = 0x7000
  · have hsep' := hsep hs
    simp only [reloc_patcher, reloc_patcher_ops, if_pos hs, List.cons_append, List.nil_append,
      runOps, MemOp.run]
    rw [load32_through_coreboot _ _ 0 (by omega) hsep',
      load32_through_coreboot _ _ 4 (by omega) hsep',
      load32_through_coreboot _ _ 8 (by omega) hsep',
      load32_through_coreboot _ _ 12 (by omega) hsep']
    exact ⟨w0, w4, w8, w12⟩
  · simp only [reloc_patcher, reloc_patcher_ops, if_neg hs, List.cons_append, List.nil_append,
      List.append_nil, runOps, MemOp.run]
    exact ⟨w0, w4, w8, w12⟩

/-- Witness for `reloc_patcher_metadata`: the sentinel size with a staging
address away from the control word. -/
theorem reloc_patcher_metadata_witness :
    (0x90000000 < 4294967296)
      ∧ ((0x7000 : Nat) = 0x7000 → ∀ j, j < 16 → ∀ k, k < 4 →
          (0x81000000 + 0x7C + j) % 4294967296 ≠ CBFS_DRAM_EN_ADDR + k)
      ∧ load32 (reloc_patcher 0x40008000 (fun _ => 0) 0x90000000 0x81000000 0x7000)
          (0x81000000 + 0x7C) = (0x90000000 + 4294967296 - 0xA0) % 4294967296
      ∧ load32 (reloc_patcher 0x40008000 (fun _ => 0) 0x90000000 0x81000000 0x7000)
          (0x81000000 + 0x7C + 4) = 0x40007000
      ∧ load32 (reloc_patcher 0x40008000 (fun _ => 0) 0x90000000 0x81000000 0x7000)
          (0x81000000 + 0x7C + 8) = (0x90000000 + 0x7000) % 4294967296
      ∧ load32 (reloc_patcher 0x40008000 (fun _ => 0) 0x90000000 0x81000000 0x7000)
          (0x81000000 + 0x7C + 12) = 0x90000000 :=
  ⟨by decide, fun _ => by decide,
    reloc_patcher_metadata 0x40008000 (fun _ => 0) 0x90000000 0x81000000 0x7000 (by decide)
      (fun _ => by decide)⟩

/-- C2, as stated, fails: for `payload_dst = 0` and `payload_size = 1` the
subtraction wraps, so `start = 0xFFFFFF60` is above `ep = 0`; for
`payload_dst = 0xFFFFFFFF` and `payload_size = 1` the addition wraps, so
`end = 0` is below `ep`. -/
theorem reloc_patcher_order_fails :
    (0 < 1)
      ∧ load32 (reloc_patcher 0x40008000 (fun _ => 0) 0 0x81000000 1) (0x81000000 + 0x7C)
          = 0xFFFFFF60
      ∧ load32 (reloc_patcher 0x40008000 (fun _ => 0) 0 0x81000000 1) (0x81000000 + 0x7C + 12)
          = 0
      ∧ ¬ ((reloc_meta 0 1).start ≤ (reloc_meta 0 1).ep)
      ∧ ¬ ((reloc_meta 0xFFFFFFFF 1).ep ≤ (reloc_meta 0xFFFFFFFF 1).end_) := by
  decide

/-- C2 (amended): for every `payload_dst` and `payload_size > 0` with
`0xA0 ≤ payload_dst` and `payload_dst + payload_size < 2 ^ 32` (no wrap in
either computation), the values `reloc_patcher` stores satisfy
`start ≤ ep ≤ end` and `ep = payload_dst`; they are the values of the stores
it issues at the relocator block. -/
theorem reloc_patcher_order (ipl payload_dst payload_src payload_size : Nat)
    (_hpos : 0 < payload_size) (hlo : 0xA0 ≤ payload_dst)
    (hhi : payload_dst + payload_size < 4294967296) :
    (reloc_meta payload_dst payload_size).start ≤ (reloc_meta payload_dst payload_size).ep
      ∧ (reloc_meta payload_dst payload_size).ep ≤ (reloc_meta payload_dst payload_size).end_
      ∧ (reloc_meta payload_dst payload_size).ep = payload_dst
      ∧ MemOp.store (relocator payload_src) (reloc_meta payload_dst payload_size).start
          ∈ reloc_patcher_ops ipl payload_dst payload_src payload_size
      ∧ MemOp.store (relocator payload_src + 8) (reloc_meta payload_dst payload_size).end_
          ∈ reloc_patcher_ops ipl payload_dst payload_src payload_size
      ∧ MemOp.store (relocator payload_src + 12) (reloc_meta payload_dst payload_size).ep
          ∈ reloc_patcher_ops ipl payload_dst payload_src payload_size := by
  refine ⟨?_, ?_, rfl, ?_, ?_, ?_⟩
  · simp only [reloc_meta, ALIGN_reloc]; omega
  · simp only [reloc_meta]; omega
  · simp [reloc_patcher_ops]
  · simp [reloc_patcher_ops]
  · simp [reloc_patcher_ops]

/-- Witness for `reloc_patcher_order`. -/
theorem reloc_patcher_order_witness :
    (0 < 0x7000) ∧ (0xA0 ≤ 0x90000000) ∧ (0x90000000 + 0x7000 < 4294967296)
      ∧ (reloc_meta 0x90000000 0x7000).start ≤ (reloc_meta 0x90000000 0x7000).ep
      ∧ (reloc_meta 0x90000000 0x7000).ep ≤ (reloc_meta 0x90000000 0x7000).end_
      ∧ (reloc_meta 0x90000000 0x7000).ep = 0x90000000 :=
  have h := reloc_patcher_order 0x40008000 0x90000000 0x81000000 0x7000 (by decide)
    (by decide) (by decide)
  ⟨by decide, by decide, by decide, h.1, h.2.1, h.2.2.1⟩

/-- C3, as stated, fails: with `payload_size = 1` (not the sentinel) and the
staging address `0x4003DF84`, the `start` word of the metadata is stored on the
control word `0x4003E000`, whose content changes from `0` to `0x8FFFFF60`. -/
theorem reloc_patcher_control_word_changed :
    (1 : Nat) ≠ 0x7000
      ∧ load32 (fun _ => 0) CBFS_DRAM_EN_ADDR = 0
      ∧ load32 (reloc_patcher 0x40008000 (fun _ => 0) 0x90000000 0x4003DF84 1)
          CBFS_DRAM_EN_ADDR = 0x8FFFFF60
      ∧ load32 (reloc_patcher 0x40008000 (fun _ => 0) 0x90000000 0x4003DF84 1)
          CBFS_DRAM_EN_ADDR ≠ load32 (fun _ => 0) CBFS_DRAM_EN_ADDR := by
  decide

/-- C3 (amended): `reloc_patcher` issues the copy of the `0x7000`-byte blob
from `0xCFF00000` to `payload_src + 0xA0` if and only if
`payload_size = 0x7000`, and in that case it also stores the magic word, which
is what the control address `0x4003E000` holds afterwards, and every blob byte
outside the control word holds the source byte as it was when the copy
started.  For every other `payload_size`, provided none of the `0x94` header
bytes at `payload_src` is a byte of the control word, no store of the magic
word to the control address is issued and the control word keeps its
content. -/
theorem reloc_patcher_coreboot (ipl : Nat) (m : Mem)
    (payload_dst payload_src payload_size : Nat) :
    (MemOp.copy ((payload_src + 0xA0) % 4294967296) COREBOOT_ADDR 0x7000
        ∈ reloc_patcher_ops ipl payload_dst payload_src payload_size
        ↔ payload_size = 0x7000)
      ∧ (payload_size = 0x7000 →
          MemOp.store CBFS_DRAM_EN_ADDR CBFS_DRAM_MAGIC
            ∈ reloc_patcher_ops ipl payload_dst payload_src payload_size
          ∧ load32 (reloc_patcher ipl m payload_dst payload_src payload_size)
            CBFS_DRAM_EN_ADDR = CBFS_DRAM_MAGIC
          ∧ (∀ i, i < 0x7000 →
              (∀ k, k < 4 → (payload_src + 0xA0 + i) % 4294967296 ≠ CBFS_DRAM_EN_ADDR + k) →
              reloc_patcher ipl m payload_dst payload_src payload_size
                  ((payload_src + 0xA0 + i) % 4294967296)
                = runOps ((reloc_patcher_ops ipl payload_dst payload_src payload_size).take 5) m
                  ((COREBOOT_ADDR + i) % 4294967296)))
      ∧ (payload_size ≠ 0x7000 →
          (∀ i, i < 0x94 → ∀ k, k < 4 →
            (payload_src + i) % 4294967296 ≠ CBFS_DRAM_EN_ADDR + k) →
          MemOp.store CBFS_DRAM_EN_ADDR CBFS_DRAM_MAGIC
            ∉ reloc_patcher_ops ipl payload_dst payload_src payload_size
          ∧ load32 (reloc_patcher ipl m payload_dst payload_src payload_size)
            CBFS_DRAM_EN_ADDR = load32 m CBFS_DRAM_EN_ADDR) := by
  refine ⟨?_, ?_, ?_⟩
  · by_cases hs : payload_size = 0x7000
    · simp [reloc_patcher_ops, hs, ALIGN_reloc]
    · simp [reloc_patcher_ops, hs, PATCHED_RELOC_SZ]
  · intro hs
    refine ⟨by simp [reloc_patcher_ops, hs], ?_, ?_⟩
    · simp only [reloc_patcher, reloc_patcher_ops, if_pos hs, List.cons_append, List.nil_append,
        runOps, MemOp.run]
      rw [load32_store32_same]
      decide
    · intro i hi hsep
      have hctl : 4 ≤ offsetFrom CBFS_DRAM_EN_ADDR ((payload_src + 0xA0 + i) % 4294967296) := by
        apply offsetFrom_ge_of_sep
        intro k hk
        have := hsep k hk
        unfold CBFS_DRAM_EN_ADDR at this ⊢
        omega
      have hoff : offsetFrom ((payload_src + 0xA0) % 4294967296)
          ((payload_src + 0xA0 + i) % 4294967296) = i := by
        unfold offsetFrom
        omega
      simp only [reloc_patcher, reloc_patcher_ops, if_pos hs, List.cons_append, List.nil_append,
        List.take, runOps, MemOp.run, ALIGN_reloc]
      unfold store32
      rw [if_neg (by omega)]
      unfold memcpy
      rw [hoff, if_pos hi]
  · intro hs hsep
    constructor
    · have e0 := hsep 0x7C (by omega) 0 (by omega)
      have e4 := hsep 0x80 (by omega) 0 (by omega)
      have e8 := hsep 0x84 (by omega) 0 (by omega)
      have e12 := hsep 0x88 (by omega) 0 (by omega)
      simp only [reloc_patcher_ops, if_neg hs, List.append_nil, List.mem_cons, List.mem_singleton,
        List.not_mem_nil, or_false, MemOp.store.injEq, not_or, not_and, reduceCtorEq,
        not_false_eq_true, true_and]
      unfold relocator RELOC_META_OFF
      unfold CBFS_DRAM_EN_ADDR at e0 e4 e8 e12 ⊢
      refine ⟨?_, ?_, ?_, ?_⟩ <;> intro h <;> omega
    · simp only [reloc_patcher, reloc_patcher_ops, if_neg hs, List.append_nil, runOps,
        MemOp.run]
      exact load32_ctrl_through_header m ipl payload_src _ hsep

/-- Witness for `reloc_patcher_coreboot` in the non-sentinel case: a staging
header away from the control word leaves the control word as it was. -/
theorem reloc_patcher_coreboot_witness :
    (1 : Nat) ≠ 0x7000
      ∧ (∀ i, i < 0x94 → ∀ k, k < 4 → (0x81000000 + i) % 4294967296 ≠ CBFS_DRAM_EN_ADDR + k)
      ∧ load32 (reloc_patcher 0x40008000 (fun _ => 7) 0x90000000 0x81000000 1)
          CBFS_DRAM_EN_ADDR = load32 (fun _ => 7) CBFS_DRAM_EN_ADDR :=
  ⟨by decide, by decide,
    ((reloc_patcher_coreboot 0x40008000 (fun _ => 7) 0x90000000 0x81000000 1).2.2
      (by decide) (by decide)).2⟩

/-! ## Claims on the storage mount layer -/

/-- C4: for every starting state and every card (answering the same both
times), `sd_mount` run twice in a row returns what a single run returns and
ends in the same state; once a run has returned `true`, a further run returns
`true` whatever the card answers, issues no call and changes nothing.  `sd_unmount` run twice ends in the same
state as a single run, and `sd_unmount` with `sd_mounted` false changes no
state and issues no controller or filesystem call. -/
theorem sd_mount_unmount_idempotent (card : SdCard) (s : SdState) :
    ((sd_mount card (sd_mount card s).state).ret = (sd_mount card s).ret
        ∧ (sd_mount card (sd_mount card s).state).state = (sd_mount card s).state)
      ∧ (∀ card2 : SdCard, (sd_mount card s).ret = true →
          (sd_mount card2 (sd_mount card s).state).ret = true
          ∧ (sd_mount card2 (sd_mount card s).state).state = (sd_mount card s).state
          ∧ (sd_mount card2 (sd_mount card s).state).calls = [])
      ∧ (sd_unmount (sd_unmount s).state).state = (sd_unmount s).state
      ∧ (s.sd_mounted = false → (sd_unmount s).state = s ∧ (sd_unmount s).calls = []) := by
  obtain ⟨mounted, up, bound⟩ := s
  obtain ⟨ok, fr⟩ := card
  refine ⟨?_, ?_, ?_, ?_⟩
  · cases mounted <;> cases ok <;> by_cases hfr : fr = FR_OK <;> simp [sd_mount, hfr]
  · intro card2
    cases mounted <;> cases ok <;> by_cases hfr : fr = FR_OK <;> simp [sd_mount, hfr]
  · cases mounted <;> simp [sd_unmount]
  · intro h
    simp only at h
    simp [sd_unmount, h]

/-- Witness for `sd_mount_unmount_idempotent`: a card with a FAT volume and
an unmounted start state; the first `sd_mount` succeeds, and `sd_unmount` on
the start state is a no-op. -/
theorem sd_mount_unmount_idempotent_witness :
    (sd_mount { init_sd := true, f_mount := 0 }
        { sd_mounted := false, sd_storage_up := false, sd_fs_bound := false }).ret = true
      ∧ (sd_mount { init_sd := false, f_mount := 3 }
          (sd_mount { init_sd := true, f_mount := 0 }
            { sd_mounted := false, sd_storage_up := false, sd_fs_bound := false }).state).calls
          = []
      ∧ (sd_unmount { sd_mounted := false, sd_storage_up := false, sd_fs_bound := false }).calls
          = [] :=
  have h := sd_mount_unmount_idempotent { init_sd := true, f_mount := 0 }
    { sd_mounted := false, sd_storage_up := false, sd_fs_bound := false }
  ⟨by decide, (h.2.1 { init_sd := false, f_mount := 3 } (by decide)).2.2, (h.2.2.2 rfl).2⟩

/-- C5: when `f_open` fails, `sd_file_read` returns `NULL`, issues no `malloc`
and leaves the heap as it was; when `f_open` succeeds and `f_read` fails, it
returns `NULL` after a `malloc` and a `free` of that same block, in this order.
In both cases the live allocations after the call are those before it. -/
theorem sd_file_read_failure_no_leak (fs : FatFs) (path : String) (fsize : Option Nat)
    (h : Heap) :
    (fs.f_open path FA_READ ≠ FR_OK →
        (sd_file_read fs path fsize h).ret = none
        ∧ (sd_file_read fs path fsize h).state = (h, fsize)
        ∧ (∀ size ptr, Call.malloc size ptr ∉ (sd_file_read fs path fsize h).calls))
      ∧ (fs.f_open path FA_READ = FR_OK →
          (fs.f_read path (fs.f_size path % 4294967296)).1 ≠ FR_OK →
        (sd_file_read fs path fsize h).ret = none
        ∧ (sd_file_read fs path fsize h).calls
            = [Call.f_open path FA_READ, Call.f_size,
                Call.malloc (fs.f_size path % 4294967296) h.next,
                Call.f_read (fs.f_size path % 4294967296), Call.free h.next, Call.f_close]
        ∧ (sd_file_read fs path fsize h).state.1.live = h.live
        ∧ (sd_file_read fs path fsize h).state.1.live.length = h.live.length) := by
  constructor
  · intro ho
    simp [sd_file_read, ho]
  · intro ho hr
    simp [sd_file_read, ho, hr, malloc, free]

/-- Witness for `sd_file_read_failure_no_leak`: a missing file for the failing
open, a disk error for the failing read. -/
theorem sd_file_read_failure_no_leak_witness :
    (missingFileFs.f_open "keys.bin" FA_READ ≠ FR_OK)
      ∧ (sd_file_read missingFileFs "keys.bin" (some 0) { live := [64], next := 128 }).ret = none
      ∧ (sd_file_read missingFileFs "keys.bin" (some 0) { live := [64], next := 128 }).state
          = ({ live := [64], next := 128 }, some 0)
      ∧ (readErrorFs.f_open "keys.bin" FA_READ = FR_OK)
      ∧ ((readErrorFs.f_read "keys.bin" (readErrorFs.f_size "keys.bin" % 4294967296)).1 ≠ FR_OK)
      ∧ (sd_file_read readErrorFs "keys.bin" (some 0) { live := [64], next := 128 }).ret = none
      ∧ (sd_file_read readErrorFs "keys.bin" (some 0)
          { live := [64], next := 128 }).state.1.live = [64] :=
  have h := sd_file_read_failure_no_leak missingFileFs "keys.bin" (some 0)
    { live := [64], next := 128 }
  have k := sd_file_read_failure_no_leak readErrorFs "keys.bin" (some 0)
    { live := [64], next := 128 }
  have h1 := h.1 (by decide)
  have k1 := k.2 (by decide) (by decide)
  ⟨by decide, h1.1, h1.2.1, by decide, by decide, k1.1, k1.2.2.1⟩

/-- C6 fails on the code: on a filesystem where `f_open` succeeds and
`f_write` reports `FR_DISK_ERR` with nothing written, `sd_save_to_file`
returns 0 although none of the three bytes reached the file. -/
theorem sd_save_to_file_drops_write_error :
    diskErrorFs.f_open "keys.bin" (FA_CREATE_ALWAYS ||| FA_WRITE) = 0
      ∧ diskErrorFs.f_write "keys.bin" [1, 2, 3] 3 = (1, 0)
      ∧ (sd_save_to_file diskErrorFs [1, 2, 3] 3 "keys.bin").ret = 0
      ∧ (sd_save_to_file diskErrorFs [1, 2, 3] 3 "keys.bin").state = some 0 := by
  decide

/-- Whenever `f_open` succeeds, `sd_save_to_file` returns 0, whatever `f_write`
answers; a failing `f_open` has its code returned. -/
theorem sd_save_to_file_ret (fs : FatFs) (buf : List Nat) (size : Nat) (filename : String) :
    (sd_save_to_file fs buf size filename).ret
      = fs.f_open filename (FA_CREATE_ALWAYS ||| FA_WRITE) % 4294967296 := by
  by_cases h : fs.f_open filename (FA_CREATE_ALWAYS ||| FA_WRITE) % 4294967296 = 0
  · simp [sd_save_to_file, h]
  · simp [sd_save_to_file, h]

/-! ## Lemmas on the label text -/

theorem decimalValue_step_digit (a d : Nat) (hd : d < 10) :
    decimalStep a (48 + d) = a * 10 + d := by
  have h : 48 + d ≠ 32 := by omega
  unfold decimalStep
  rw [if_neg h]
  omega

theorem foldl_putnDigits (fuel : Nat) : ∀ (v : Nat) (acc : List Nat) (a : Nat),
    v < 10 ^ fuel →
    ∃ k, List.foldl decimalStep a
        (putnDigits fuel v acc)
      = List.foldl decimalStep
        (a * 10 ^ k + v) acc := by
  induction fuel with
  | zero =>
    intro v acc a hv
    refine ⟨0, ?_⟩
    have : v = 0 := by simpa using hv
    subst this
    simp [putnDigits]
  | succ fuel ih =>
    intro v acc a hv
    by_cases h0 : v / 10 = 0
    · refine ⟨1, ?_⟩
      have hlt : v % 10 < 10 := Nat.mod_lt _ (by omega)
      rw [putnDigits, if_pos h0, List.foldl_cons, decimalValue_step_digit a _ hlt]
      have : v % 10 = v := by omega
      rw [this, pow_one]
    · have hv10 : v / 10 < 10 ^ fuel := by
        apply Nat.div_lt_of_lt_mul
        rw [pow_succ] at hv
        omega
      obtain ⟨k, hk⟩ := ih (v / 10) ((48 + v % 10) :: acc) a hv10
      refine ⟨k + 1, ?_⟩
      have hlt : v % 10 < 10 := Nat.mod_lt _ (by omega)
      rw [putnDigits, if_neg h0, hk, List.foldl_cons, decimalValue_step_digit _ _ hlt]
      have : (a * 10 ^ k + v / 10) * 10 + v % 10 = a * 10 ^ (k + 1) + v := by
        rw [pow_succ]
        have := Nat.div_add_mod v 10
        nlinarith
      rw [this]

theorem foldl_blanks (n a : Nat) :
    List.foldl decimalStep a
      (List.replicate n 32) = a := by
  induction n with
  | zero => rfl
  | succ n ih => simpa [List.replicate_succ, decimalStep] using ih

theorem decimalValue_fmt_3d (v : Nat) : decimalValue (fmt_3d v) = v := by
  have hv : v < 10 ^ (v + 1) :=
    lt_of_lt_of_le (Nat.lt_pow_self (by norm_num) v) (Nat.pow_le_pow_right (by norm_num) (by omega))
  obtain ⟨k, hk⟩ := foldl_putnDigits (v + 1) v [] 0 hv
  unfold decimalValue fmt_3d
  rw [List.foldl_append, foldl_blanks, hk]
  simp

theorem length_putnDigits_le (fuel : Nat) : ∀ (v : Nat) (acc : List Nat) (k : Nat),
    v < 10 ^ k → (putnDigits fuel v acc).length ≤ acc.length + max k 1 := by
  induction fuel with
  | zero =>
    intro v acc k _
    simp [putnDigits]
  | succ fuel ih =>
    intro v acc k hv
    by_cases h0 : v / 10 = 0
    · rw [putnDigits, if_pos h0]
      simp only [List.length_cons]
      omega
    · rw [putnDigits, if_neg h0]
      match k, hv with
      | 0, hv => simp at hv; omega
      | k + 1, hv =>
        have hv10 : v / 10 < 10 ^ k := by
          apply Nat.div_lt_of_lt_mul
          rw [pow_succ] at hv
          omega
        have hk : 1 ≤ k := by
          rcases k with _ | k
          · simp at hv10; omega
          · omega
        have := ih (v / 10) ((48 + v % 10) :: acc) k hv10
        simp only [List.length_cons] at this
        omega

theorem length_fmt_3d (v : Nat) :
    3 ≤ (fmt_3d v).length ∧ (v < 1000 → (fmt_3d v).length = 3) := by
  unfold fmt_3d
  simp only [List.length_append, List.length_replicate]
  refine ⟨by omega, ?_⟩
  intro hv
  have := length_putnDigits_le (v + 1) v [] 3 (by norm_num; omega)
  simp only [List.length_nil] at this
  omega

theorem sprintf_3d_below (buf : CBuf) (off v i : Nat) (hi : i < off) :
    sprintf_3d buf off v i = buf i := by
  unfold sprintf_3d
  rw [if_neg (by omega), if_neg (by omega)]

theorem sprintf_3d_text (buf : CBuf) (off v : Nat) :
    textAt (sprintf_3d buf off v) off (fmt_3d v) := by
  constructor
  · intro i hi
    unfold sprintf_3d
    rw [if_pos (by omega)]
    simp
  · unfold sprintf_3d
    rw [if_neg (by omega), if_pos rfl]

/-! ## Claims on the key-generation labels -/

/-- C7: in `_get_key_generations`, when the classifier recognises the block read
from the physical eMMC as an entry with generation `kb`, the first menu caption
keeps its first 36 characters and holds at offset 36 the text of `kb` as a
decimal padded to width 3 (exactly three characters below 1000), whose numeric
value is `kb`; when it recognises nothing, the caption is the label as it was.
The same holds for the block read from the emulated eMMC and the second
caption, whenever that block is read, that is when `emummc_force_disable` is
off. -/
theorem get_key_generations_labels (K : Consts) (flash : Flash)
    (pkg1_identify : List Nat → Option pkg1_id_t) (g : Globals)
    (sysnand_label emunand_label : CBuf) :
    (∀ id, pkg1_identify flash.sysnand_pkg1 = some id →
        (∀ i, i < 36 →
          ((_get_key_generations K flash pkg1_identify g sysnand_label emunand_label).ment_top
            0).caption i = sysnand_label i)
        ∧ textAt
          ((_get_key_generations K flash pkg1_identify g sysnand_label emunand_label).ment_top
            0).caption 36 (fmt_3d id.kb)
        ∧ 3 ≤ (fmt_3d id.kb).length ∧ (id.kb < 1000 → (fmt_3d id.kb).length = 3)
        ∧ decimalValue (fmt_3d id.kb) = id.kb)
      ∧ (pkg1_identify flash.sysnand_pkg1 = none →
        ((_get_key_generations K flash pkg1_identify g sysnand_label emunand_label).ment_top
          0).caption = sysnand_label)
      ∧ (g.h_cfg.emummc_force_disable = false →
        (∀ id, pkg1_identify flash.emunand_pkg1 = some id →
          (∀ i, i < 36 →
            ((_get_key_generations K flash pkg1_identify g sysnand_label emunand_label).ment_top
              1).caption i = emunand_label i)
          ∧ textAt
            ((_get_key_generations K flash pkg1_identify g sysnand_label emunand_label).ment_top
              1).caption 36 (fmt_3d id.kb)
          ∧ 3 ≤ (fmt_3d id.kb).length ∧ (id.kb < 1000 → (fmt_3d id.kb).length = 3)
          ∧ decimalValue (fmt_3d id.kb) = id.kb)
        ∧ (pkg1_identify flash.emunand_pkg1 = none →
          ((_get_key_generations K flash pkg1_identify g sysnand_label emunand_label).ment_top
            1).caption = emunand_label)) := by
  have h01 : (0 : Fin 7) ≠ 1 := by decide
  refine ⟨?_, ?_, ?_⟩
  · intro id hid
    have hcap : ((_get_key_generations K flash pkg1_identify g sysnand_label
        emunand_label).ment_top 0).caption = sprintf_3d sysnand_label 36 id.kb := by
      unfold _get_key_generations
      cases hfd : g.h_cfg.emummc_force_disable <;>
        simp [hid, Function.update_same, Function.update_noteq h01]
    rw [hcap]
    exact ⟨fun i hi => sprintf_3d_below _ _ _ _ hi, sprintf_3d_text _ _ _,
      (length_fmt_3d id.kb).1, (length_fmt_3d id.kb).2, decimalValue_fmt_3d id.kb⟩
  · intro hid
    unfold _get_key_generations
    cases hfd : g.h_cfg.emummc_force_disable <;>
      simp [hid, Function.update_same, Function.update_noteq h01]
  · intro hfd
    constructor
    · intro id hid
      have hcap : ((_get_key_generations K flash pkg1_identify g sysnand_label
          emunand_label).ment_top 1).caption = sprintf_3d emunand_label 36 id.kb := by
        unfold _get_key_generations
        simp [hid, hfd, Function.update_same]
      rw [hcap]
      exact ⟨fun i hi => sprintf_3d_below _ _ _ _ hi, sprintf_3d_text _ _ _,
        (length_fmt_3d id.kb).1, (length_fmt_3d id.kb).2, decimalValue_fmt_3d id.kb⟩
    · intro hid
      unfold _get_key_generations
      simp [hid, hfd, Function.update_same]

/-- Witness for `get_key_generations_labels`: the physical block is recognised
as generation 7, the emulated block is not recognised. -/
theorem get_key_generations_labels_witness :
    ((sampleEnv false).pkg1_identify (sampleEnv false).flash.sysnand_pkg1 = some { kb := 7 })
      ∧ ((sampleEnv false).pkg1_identify (sampleEnv false).flash.emunand_pkg1 = none)
      ∧ textAt
          ((_get_key_generations sampleConsts (sampleEnv false).flash
            (sampleEnv false).pkg1_identify (coldStart { boot_cfg := 0, extra_cfg := 0 })
            (ment_top 0).caption (ment_top 1).caption).ment_top 0).caption 36 (fmt_3d 7)
      ∧ decimalValue (fmt_3d 7) = 7
      ∧ ((_get_key_generations sampleConsts (sampleEnv false).flash
            (sampleEnv false).pkg1_identify (coldStart { boot_cfg := 0, extra_cfg := 0 })
            (ment_top 0).caption (ment_top 1).caption).ment_top 1).caption
          = (ment_top 1).caption :=
  have h := get_key_generations_labels sampleConsts (sampleEnv false).flash
    (sampleEnv false).pkg1_identify (coldStart { boot_cfg := 0, extra_cfg := 0 })
    (ment_top 0).caption (ment_top 1).caption
  have h0 := h.1 { kb := 7 } (by decide)
  ⟨by decide, by decide, h0.2.1, h0.2.2.2.2, (h.2.2 rfl).2 (by decide)⟩

/-! ## Lemmas on flag arithmetic -/

theorem and_bitNot32_and (x m : Nat) (hm : m < 4294967296) : (x &&& bitNot32 m) &&& m = 0 := by
  apply Nat.eq_of_testBit_eq
  intro i
  have h32 : (4294967295 : Nat) = 2 ^ 32 - 1 := by norm_num
  simp only [bitNot32, Nat.mod_eq_of_lt hm, Nat.testBit_and, Nat.testBit_xor, h32,
    Nat.testBit_two_pow_sub_one, Nat.zero_testBit]
  by_cases hi : i < 32
  · cases x.testBit i <;> cases m.testBit i <;> simp [hi]
  · have hmi : m.testBit i = false := by
      apply Nat.testBit_lt_two_pow
      calc m < 2 ^ 32 := by norm_num; exact hm
        _ ≤ 2 ^ i := Nat.pow_le_pow_right (by norm_num) (by omega)
    simp [hmi]

theorem or_and_self (x m : Nat) : (x ||| m) &&& m = m := by
  apply Nat.eq_of_testBit_eq
  intro i
  simp only [Nat.testBit_and, Nat.testBit_or]
  cases x.testBit i <;> cases m.testBit i <;> rfl

/-! ## Claims on the handlers and on `ipl_main` -/

/-- C8: for every starting state, `dump_sysnand` ends with
`h_cfg.emummc_force_disable` set and `EXTRA_CFG_DUMP_EMUMMC` cleared in
`b_cfg.extra_cfg`, and adds exactly one call to the trace, a `dump_keys` that
finds the configuration with both updates done.  (`EXTRA_CFG_DUMP_EMUMMC` is an
`int` constant, below `2 ^ 32`.) -/
theorem dump_sysnand_effect (K : Consts) (g : Globals)
    (hK : K.EXTRA_CFG_DUMP_EMUMMC < 4294967296) :
    (dump_sysnand K g).h_cfg.emummc_force_disable = true
      ∧ (dump_sysnand K g).b_cfg.extra_cfg &&& K.EXTRA_CFG_DUMP_EMUMMC = 0
      ∧ (dump_sysnand K g).trace
          = g.trace ++ [Call.dump_keys (dump_sysnand K g).h_cfg (dump_sysnand K g).b_cfg
              (dump_sysnand K g).emu_cfg]
      ∧ ((dump_sysnand K g).trace.drop g.trace.length).countP Call.isDumpKeys = 1 := by
  refine ⟨rfl, ?_, rfl, ?_⟩
  · exact and_bitNot32_and _ _ hK
  · simp [dump_sysnand, dump_keys, Call.isDumpKeys]

/-- Witness for `dump_sysnand_effect`: a state with the extra flag set and the
session flag clear. -/
theorem dump_sysnand_effect_witness :
    (sampleConsts.EXTRA_CFG_DUMP_EMUMMC < 4294967296)
      ∧ (dump_sysnand sampleConsts
          (coldStart { boot_cfg := 0, extra_cfg := 3 })).h_cfg.emummc_force_disable = true
      ∧ (dump_sysnand sampleConsts (coldStart { boot_cfg := 0, extra_cfg := 3 })).b_cfg.extra_cfg
          &&& sampleConsts.EXTRA_CFG_DUMP_EMUMMC = 0 :=
  have h := dump_sysnand_effect sampleConsts (coldStart { boot_cfg := 0, extra_cfg := 3 })
    (by decide)
  ⟨by decide, h.1, h.2.1⟩

/-- C9: when `h_cfg.emummc_force_disable` is set, `dump_emunand` returns the
state it was given: no call is issued, so `dump_keys` is not invoked, and
`h_cfg`, `b_cfg` and `emu_cfg` are unchanged.  When it is clear, `dump_emunand`
sets `emu_cfg.enabled`, sets `EXTRA_CFG_DUMP_EMUMMC` in `b_cfg.extra_cfg`,
leaves `h_cfg` alone and adds exactly one call to the trace, a `dump_keys` that
finds the updated configuration. -/
theorem dump_emunand_effect (K : Consts) (g : Globals) :
    (g.h_cfg.emummc_force_disable = true →
        dump_emunand K g = g
        ∧ (dump_emunand K g).trace = g.trace
        ∧ (dump_emunand K g).h_cfg = g.h_cfg
        ∧ (dump_emunand K g).b_cfg = g.b_cfg
        ∧ (dump_emunand K g).emu_cfg = g.emu_cfg)
      ∧ (g.h_cfg.emummc_force_disable = false →
        (dump_emunand K g).emu_cfg.enabled = 1
        ∧ (dump_emunand K g).b_cfg.extra_cfg &&& K.EXTRA_CFG_DUMP_EMUMMC
            = K.EXTRA_CFG_DUMP_EMUMMC
        ∧ (dump_emunand K g).h_cfg = g.h_cfg
        ∧ (dump_emunand K g).trace
            = g.trace ++ [Call.dump_keys (dump_emunand K g).h_cfg (dump_emunand K g).b_cfg
                (dump_emunand K g).emu_cfg]
        ∧ ((dump_emunand K g).trace.drop g.trace.length).countP Call.isDumpKeys = 1) := by
  constructor
  · intro h
    have e : dump_emunand K g = g := by simp [dump_emunand, h]
    rw [e]
    exact ⟨rfl, rfl, rfl, rfl, rfl⟩
  · intro h
    have e : dump_emunand K g
        = dump_keys { g with
            emu_cfg := { g.emu_cfg with enabled := 1 }
            b_cfg := { g.b_cfg with
              extra_cfg := g.b_cfg.extra_cfg ||| K.EXTRA_CFG_DUMP_EMUMMC } } := by
      simp [dump_emunand, h]
    rw [e]
    refine ⟨rfl, or_and_self _ _, rfl, rfl, ?_⟩
    simp [dump_keys, Call.isDumpKeys]

/-- Witness for `dump_emunand_effect`: with the session flag set the handler
returns its state; with the flag clear it invokes `dump_keys` once. -/
theorem dump_emunand_effect_witness :
    (dump_emunand sampleConsts
        { coldStart { boot_cfg := 0, extra_cfg := 0 } with
          h_cfg := { emummc_force_disable := true } }).trace = []
      ∧ (dump_emunand sampleConsts (coldStart { boot_cfg := 0, extra_cfg := 0 })).emu_cfg.enabled
          = 1
      ∧ ((dump_emunand sampleConsts (coldStart { boot_cfg := 0, extra_cfg := 0 })).trace.drop
          0).countP Call.isDumpKeys = 1 :=
  have h1 := (dump_emunand_effect sampleConsts
    { coldStart { boot_cfg := 0, extra_cfg := 0 } with
      h_cfg := { emummc_force_disable := true } }).1 rfl
  have h2 := (dump_emunand_effect sampleConsts
    (coldStart { boot_cfg := 0, extra_cfg := 0 })).2 rfl
  ⟨h1.2.1, h2.1, h2.2.2.2.2⟩

/-- The trace of `_get_key_generations` extends the trace it starts from by
calls that are neither `dump_keys` nor `tui_do_menu`. -/
theorem get_key_generations_trace (K : Consts) (flash : Flash)
    (pkg1_identify : List Nat → Option pkg1_id_t) (g : Globals) (l0 l1 : CBuf) :
    ∃ calls, (_get_key_generations K flash pkg1_identify g l0 l1).trace = g.trace ++ calls
      ∧ calls.countP Call.isDumpKeys = 0 ∧ calls.count Call.tui_do_menu = 0
      ∧ (_get_key_generations K flash pkg1_identify g l0 l1).h_cfg = g.h_cfg := by
  unfold _get_key_generations
  cases hfd : g.h_cfg.emummc_force_disable
  · refine ⟨_, by simp only [Bool.false_eq_true, if_false, List.append_assoc]; rfl, ?_, ?_, ?_⟩
    · simp [Call.isDumpKeys]
    · simp
    · simp
  · refine ⟨_, by simp only [if_true, List.append_assoc]; rfl, ?_, ?_, ?_⟩
    · simp [Call.isDumpKeys]
    · simp
    · simp

/-- The trace of `sd_mount` holds neither `dump_keys` nor `tui_do_menu`. -/
theorem sd_mount_calls (card : SdCard) (s : SdState) :
    (sd_mount card s).calls.countP Call.isDumpKeys = 0
      ∧ (sd_mount card s).calls.count Call.tui_do_menu = 0 := by
  unfold sd_mount
  split
  · simp
  · split
    · simp [Call.isDumpKeys]
    · split <;> simp [Call.isDumpKeys]

/-- The calls of lines 220-238 of `ipl_main`. -/
theorem ipl_main_setup_spec (env : BootEnv) (g : Globals) :
    ∃ calls, (ipl_main_setup env g).trace = g.trace ++ calls
      ∧ calls.countP Call.isDumpKeys = 0 ∧ calls.count Call.tui_do_menu = 0
      ∧ (ipl_main_setup env g).b_cfg = g.b_cfg
      ∧ (ipl_main_setup env g).h_cfg.emummc_force_disable = env.emummc_load_cfg.1 := by
  obtain ⟨mc, mk⟩ := sd_mount_calls env.card g.sd
  refine ⟨[Call.hw "config_hw", Call.hw "pivot_stack", Call.hw "heap_init"]
    ++ [Call.hw "set_default_configuration"] ++ (sd_mount env.card g.sd).calls
    ++ [Call.hw "minerva_init", Call.hw "minerva_change_freq",
      Call.hw "display_init", Call.hw "display_init_framebuffer", Call.hw "gfx_init_ctxt",
      Call.hw "gfx_con_init", Call.hw "display_backlight_pwm_init", Call.hw "bpmp_clk_rate_set"]
    ++ [Call.hw "emummc_load_cfg"], ?_, ?_, ?_, rfl, rfl⟩
  · simp [ipl_main_setup, Globals.log]
  · simp only [List.countP_append, mc]
    simp [Call.isDumpKeys]
  · simp only [List.count_append, mk]
    simp

/-- The calls and the flag of lines 240-245 of `ipl_main` after a sept run. -/
theorem ipl_main_sept_spec (K : Consts) (g : Globals)
    (hsept : g.b_cfg.boot_cfg &&& K.BOOT_CFG_SEPT_RUN ≠ 0) :
    ∃ calls, (ipl_main_sept K g).trace = g.trace ++ calls
      ∧ calls.countP Call.isDumpKeys = 1 ∧ calls.count Call.tui_do_menu = 0
      ∧ (g.b_cfg.extra_cfg &&& K.EXTRA_CFG_DUMP_EMUMMC = 0 →
          (ipl_main_sept K g).h_cfg.emummc_force_disable = true)
      ∧ (g.b_cfg.extra_cfg &&& K.EXTRA_CFG_DUMP_EMUMMC ≠ 0 →
          (ipl_main_sept K g).h_cfg = g.h_cfg) := by
  unfold ipl_main_sept
  rw [if_pos hsept]
  by_cases hx : g.b_cfg.extra_cfg &&& K.EXTRA_CFG_DUMP_EMUMMC = 0
  · simp only [if_pos hx]
    exact ⟨_, rfl, by simp [Call.isDumpKeys], by simp, fun _ => rfl, fun h => absurd hx h⟩
  · simp only [if_neg hx]
    exact ⟨_, rfl, by simp [Call.isDumpKeys], by simp, fun h => absurd h hx, fun _ => rfl⟩

theorem ipl_main_grey_spec (g : Globals) :
    (ipl_main_grey g).trace = g.trace ∧ (ipl_main_grey g).h_cfg = g.h_cfg := by
  unfold ipl_main_grey
  split <;> exact ⟨rfl, rfl⟩

/-- C10: for every start of `ipl_main` with `BOOT_CFG_SEPT_RUN` set in
`b_cfg.boot_cfg`, the calls issued up to and including the first
`tui_do_menu` end with that `tui_do_menu`, contain no other one, and contain
exactly one `dump_keys`.  If `EXTRA_CFG_DUMP_EMUMMC` is clear in
`b_cfg.extra_cfg`, then `h_cfg.emummc_force_disable` is set at that point,
whatever `emummc_load_cfg` returned; if it is set, the flag has the value
that `emummc_load_cfg` returned. -/
theorem ipl_main_sept_run (K : Consts) (env : BootEnv) (g : Globals)
    (hsept : g.b_cfg.boot_cfg &&& K.BOOT_CFG_SEPT_RUN ≠ 0) :
    (ipl_main K env g).trace
        = g.trace ++ (ipl_main K env g).trace.drop g.trace.length
      ∧ ((ipl_main K env g).trace.drop g.trace.length).getLast? = some Call.tui_do_menu
      ∧ ((ipl_main K env g).trace.drop g.trace.length).count Call.tui_do_menu = 1
      ∧ ((ipl_main K env g).trace.drop g.trace.length).countP Call.isDumpKeys = 1
      ∧ (g.b_cfg.extra_cfg &&& K.EXTRA_CFG_DUMP_EMUMMC = 0 →
          (ipl_main K env g).h_cfg.emummc_force_disable = true)
      ∧ (g.b_cfg.extra_cfg &&& K.EXTRA_CFG_DUMP_EMUMMC ≠ 0 →
          (ipl_main K env g).h_cfg.emummc_force_disable = env.emummc_load_cfg.1) := by
  obtain ⟨c1, t1, d1, m1, b1, f1⟩ := ipl_main_setup_spec env g
  have hsept1 : (ipl_main_setup env g).b_cfg.boot_cfg &&& K.BOOT_CFG_SEPT_RUN ≠ 0 := by
    rw [b1]; exact hsept
  obtain ⟨c2, t2, d2, m2, x0, x1⟩ := ipl_main_sept_spec K (ipl_main_setup env g) hsept1
  obtain ⟨t3, h3⟩ := ipl_main_grey_spec (ipl_main_sept K (ipl_main_setup env g))
  obtain ⟨c4, t4, d4, m4, h4⟩ := get_key_generations_trace K env.flash env.pkg1_identify
    (ipl_main_grey (ipl_main_sept K (ipl_main_setup env g)))
    ((ipl_main_grey (ipl_main_sept K (ipl_main_setup env g))).ment_top 0).caption
    ((ipl_main_grey (ipl_main_sept K (ipl_main_setup env g))).ment_top 1).caption
  have htrace : (ipl_main K env g).trace
      = g.trace ++ (c1 ++ (c2 ++ (c4 ++ [Call.tui_do_menu]))) := by
    show (Globals.log _ _).trace = _
    simp only [Globals.log, t4, t3, t2, t1, List.append_assoc]
  have hflag : (ipl_main K env g).h_cfg = (ipl_main_sept K (ipl_main_setup env g)).h_cfg := by
    show (Globals.log _ _).h_cfg = _
    simp only [Globals.log, h4, h3]
  rw [b1] at x0 x1
  rw [htrace, List.drop_left]
  refine ⟨rfl, ?_, ?_, ?_, ?_, ?_⟩
  · simp [← List.append_assoc]
  · simp only [List.count_append, m1, m2, m4]
    simp
  · simp only [List.countP_append, d1, d2, d4]
    simp [Call.isDumpKeys]
  · intro hx
    rw [hflag]
    exact x0 hx
  · intro hx
    rw [hflag, x1 hx]
    exact f1

/-- Witness for `ipl_main_sept_run`: a cold start after a sept run with the
extra flag clear and a loader that reports the emulated NAND as usable. -/
theorem ipl_main_sept_run_witness :
    ((coldStart { boot_cfg := 0x80, extra_cfg := 0 }).b_cfg.boot_cfg
        &&& sampleConsts.BOOT_CFG_SEPT_RUN ≠ 0)
      ∧ ((ipl_main sampleConsts (sampleEnv false)
          (coldStart { boot_cfg := 0x80, extra_cfg := 0 })).trace.drop 0).countP
            Call.isDumpKeys = 1
      ∧ (ipl_main sampleConsts (sampleEnv false)
          (coldStart { boot_cfg := 0x80, extra_cfg := 0 })).h_cfg.emummc_force_disable = true :=
  have h := ipl_main_sept_run sampleConsts (sampleEnv false)
    (coldStart { boot_cfg := 0x80, extra_cfg := 0 }) (by decide)
  ⟨by decide, h.2.2.2.1, h.2.2.2.2.1 (by decide)⟩

end Lockpick
